import Mathlib

/-
Verification of the request-relay and HTML-rewriting pipeline of the
Doge Proxy server (src/server.js).

The development shallowly embeds the pipeline:
  * string primitives model the JavaScript string operations the code uses
    (startsWith, includes);
  * URLModel with parseAbsoluteURL / resolveRef models the WHATWG URL
    parser as exercised by the code (http and https URLs; host, optional
    port with default-port canonicalisation, path plus query and fragment
    kept as an opaque suffix; scheme-bearing references parsed as
    absolute, with non-http(s) schemes kept opaque under the null origin;
    scheme-less references resolved relative to the base: protocol
    relative, root relative, query-only, fragment-only and relative
    path);
  * Element / rewriteElement / scrubScript / addBase / modifyHtml embed
    the jsdom-based modifyHtml function;
  * handleProxy embeds the app.all route handler, with the network fetch
    and the jsdom document parse supplied as oracles, since they are
    external effects.
-/

set_option autoImplicit false

namespace DogeProxy

/-- Does the character list start with the second list?  Models the
JavaScript String.startsWith on the underlying characters. -/
def listStarts : List Char → List Char → Bool
  | _, [] => true
  | [], _ :: _ => false
  | c :: cs, d :: ds => c == d && listStarts cs ds

/-- Model of the JavaScript startsWith. -/
def strStarts (s pat : String) : Bool :=
  listStarts s.data pat.data

/-- Does the first character list contain the second as a contiguous run? -/
def listHasSub : List Char → List Char → Bool
  | [], pat => listStarts [] pat
  | c :: cs, pat => listStarts (c :: cs) pat || listHasSub cs pat

/-- Model of the JavaScript String.includes. -/
def includesSub (s pat : String) : Bool :=
  listHasSub s.data pat.data

/-- Specification-level substring containment: s has pat as a contiguous
substring. -/
def strContains (s pat : String) : Prop :=
  ∃ a b, s = a ++ (pat ++ b)

/-- ASCII lowercasing of a string, as the WHATWG host parser and the Node
header lookup perform it. -/
def strToLower (s : String) : String :=
  String.mk (s.data.map Char.toLower)

/-- A URL as the WHATWG URL class exposes it to the code.  For an http or
https URL: the lowercased scheme, the lowercased host, an optional
non-default port, and the rest of the URL (path, query and fragment) as
one suffix beginning with a slash.  For any other scheme (data, mailto,
ftp and so on) the URL is kept opaque: scheme is the lowercased scheme,
host is empty, port is none, and pathRest is everything after the colon. -/
structure URLModel where
  scheme : String
  host : String
  port : Option Nat
  pathRest : String
deriving DecidableEq

/-- Serialisation of the optional port. -/
def portSuffix : Option Nat → String
  | none => ""
  | some p => ":" ++ toString p

/-- The origin of a URL, as URL.origin returns it: scheme, host and port
for an http or https URL, the literal string null for every other
scheme (an opaque origin). -/
def origin (u : URLModel) : String :=
  if u.scheme == "http" || u.scheme == "https" then
    u.scheme ++ ("://" ++ (u.host ++ portSuffix u.port))
  else "null"

/-- The full serialisation of a URL, as URL.href returns it. -/
def href (u : URLModel) : String :=
  if u.scheme == "http" || u.scheme == "https" then
    u.scheme ++ ("://" ++ (u.host ++ (portSuffix u.port ++ u.pathRest)))
  else u.scheme ++ (":" ++ u.pathRest)

/-- Default port of a scheme. -/
def defaultPort (scheme : String) : Nat :=
  if scheme == "http" then 80 else 443

/-- Parse a run of decimal digits into a number; none on a non-digit. -/
def parseDigits : List Char → Nat → Option Nat
  | [], acc => some acc
  | c :: cs, acc =>
    if c.isDigit then parseDigits cs (acc * 10 + (c.toNat - 48)) else none

/-- A character that terminates the authority component. -/
def isAuthorityEnd (c : Char) : Bool :=
  c == '/' || c == '?' || c == '#'

/-- Parse the part of an http or https URL after the scheme marker:
host, optional port, and the path-query-fragment suffix. -/
def parseAuthority (scheme : String) (rest : List Char) : Option URLModel :=
  let auth := rest.takeWhile (fun c => !(isAuthorityEnd c))
  let tail := rest.dropWhile (fun c => !(isAuthorityEnd c))
  let hostCs := auth.takeWhile (fun c => !(c == ':'))
  let portCs := auth.dropWhile (fun c => !(c == ':'))
  if hostCs.isEmpty then none
  else
    let host := String.mk (hostCs.map Char.toLower)
    let pathRest := if tail.isEmpty then "/" else String.mk tail
    match portCs with
    | [] => some { scheme := scheme, host := host, port := none, pathRest := pathRest }
    | _ :: digits =>
      if digits.isEmpty then
        some { scheme := scheme, host := host, port := none, pathRest := pathRest }
      else
        match parseDigits digits 0 with
        | none => none
        | some p =>
          some { scheme := scheme, host := host,
                 port := if p == defaultPort scheme then none else some p,
                 pathRest := pathRest }

/-- Model of new URL(s) on an absolute http or https URL string, the only
absolute forms the pipeline constructs.  Any other string fails, as the
WHATWG parser fails on a scheme-less string. -/
def parseAbsoluteURL (s : String) : Option URLModel :=
  if strStarts s "https://" then parseAuthority "https" (s.data.drop 8)
  else if strStarts s "http://" then parseAuthority "http" (s.data.drop 7)
  else none

/-- The path component of a suffix, with query and fragment removed. -/
def stripQuery (pathRest : String) : String :=
  String.mk (pathRest.data.takeWhile (fun c => !(c == '?' || c == '#')))

/-- The suffix with only the fragment removed. -/
def stripFragment (pathRest : String) : String :=
  String.mk (pathRest.data.takeWhile (fun c => !(c == '#')))

/-- The directory part of a path: everything up to and including the last
slash of the query-free path. -/
def dirOf (pathRest : String) : String :=
  String.mk ((((stripQuery pathRest).data.reverse.dropWhile
    (fun c => !(c == '/'))).reverse))

/-- A character allowed in a URL scheme after the leading letter. -/
def isSchemeChar (c : Char) : Bool :=
  c.isAlpha || c.isDigit || c == '+' || c == '-' || c == '.'

/-- Scheme detection of the WHATWG parser: a reference carries a scheme
when an ASCII letter followed by scheme characters reaches a colon
before any other character.  Returns the lowercased scheme and the text
after the colon (schemes match case-insensitively and serialise in lower
case). -/
def splitScheme (ref : String) : Option (String × String) :=
  match ref.data with
  | [] => none
  | c :: _ =>
    if c.isAlpha then
      match ref.data.dropWhile isSchemeChar with
      | ':' :: tail =>
        some (String.mk ((ref.data.takeWhile isSchemeChar).map Char.toLower),
          String.mk tail)
      | _ => none
    else none

/-- Model of new URL(ref, base): resolve a reference string against an
absolute http(s) base URL.  A scheme-bearing reference is absolute: for
http and https (any letter case) the authority is parsed, for every
other scheme the reference becomes an opaque URL with origin null, as
the WHATWG parser does.  A scheme-less reference resolves relative to
the base.  The lenient special-scheme forms without the double slash
(such as a bare http:foo) are outside the model and fail. -/
def resolveRef (ref : String) (base : URLModel) : Option URLModel :=
  match splitScheme ref with
  | some (sch, rest) =>
    if sch == "http" || sch == "https" then
      if strStarts rest "//" then parseAuthority sch (rest.data.drop 2)
      else none
    else
      some { scheme := sch, host := "", port := none, pathRest := rest }
  | none =>
    if strStarts ref "//" then
      parseAbsoluteURL (base.scheme ++ (":" ++ ref))
    else if strStarts ref "/" then
      some { base with pathRest := ref }
    else if ref == "" then
      some base
    else if strStarts ref "?" then
      some { base with pathRest := stripQuery base.pathRest ++ ref }
    else if strStarts ref "#" then
      some { base with pathRest := stripFragment base.pathRest ++ ref }
    else
      some { base with pathRest := dirOf base.pathRest ++ ref }

/-- An element of the parsed document, as the rewriter sees it through
jsdom: an uppercase tag name, its attribute list in document order, and
its text content. -/
structure Element where
  tagName : String
  attrs : List (String × String)
  textContent : String
deriving DecidableEq

/-- First-match attribute lookup, as getAttribute performs it. -/
def lookupAttr : List (String × String) → String → Option String
  | [], _ => none
  | (k, w) :: rest, name => if k == name then some w else lookupAttr rest name

/-- Model of el.getAttribute(name). -/
def Element.getAttr (el : Element) (name : String) : Option String :=
  lookupAttr el.attrs name

/-- Replace the value of an existing attribute in place, else append. -/
def setAttrList : List (String × String) → String → String → List (String × String)
  | [], name, v => [(name, v)]
  | (k, w) :: rest, name, v =>
    if k == name then (name, v) :: rest else (k, w) :: setAttrList rest name v

/-- Model of el.setAttribute(name, v). -/
def Element.setAttr (el : Element) (name v : String) : Element :=
  { el with attrs := setAttrList el.attrs name v }

/-- The proxy route marker, PROXY_PREFIX in the code. -/
def proxyPrefixStr : String := "/proxy/"

/-- The selector list of modifyHtml: tag name paired with the attribute
whose presence the CSS selector requires. -/
def selectorList : List (String × String) :=
  [("A", "href"), ("LINK", "href"), ("SCRIPT", "src"), ("IMG", "src"),
   ("IFRAME", "src"), ("EMBED", "src"), ("OBJECT", "data"), ("SOURCE", "src"),
   ("VIDEO", "src"), ("AUDIO", "src"), ("FORM", "action")]

/-- Does the element match one of the eleven querySelectorAll selectors? -/
def matchesSelector (el : Element) : Bool :=
  selectorList.any (fun p => el.tagName == p.1 && (el.getAttr p.2).isSome)

/-- The attribute the code reads and writes for a matched element:
action for FORM, href for A, src for everything else (so in particular
src for LINK and OBJECT, although the selector looked at href and data). -/
def chosenAttr (tag : String) : String :=
  if tag == "FORM" then "action" else if tag == "A" then "href" else "src"

/-- The skip test on the attribute value: falsy, fragment, mailto, tel or
javascript values are left alone. -/
def skipValue (v : String) : Bool :=
  v == "" || strStarts v "#" || strStarts v "mailto:" ||
    strStarts v "tel:" || strStarts v "javascript:"

/-- The per-element body of the selector loop of modifyHtml: resolve the
chosen attribute against the target, mark cross-origin elements with
target and rel, and rewrite the attribute to the proxy-relative form.
A failed resolution (the catch branch) leaves the element untouched. -/
def rewriteElement (target : URLModel) (el : Element) : Element :=
  if matchesSelector el then
    match el.getAttr (chosenAttr el.tagName) with
    | none => el
    | some v =>
      if skipValue v then el
      else
        match resolveRef v target with
        | none => el
        | some ru =>
          let el2 :=
            if origin ru != origin target then
              (el.setAttr "target" "_blank").setAttr "rel" "noopener noreferrer"
            else el
          el2.setAttr (chosenAttr el.tagName) (proxyPrefixStr ++ href ru)
  else el

/-- The frame-busting test of modifyHtml on a script body. -/
def bustingHit (content : String) : Bool :=
  includesSub content "top.location" || includesSub content "frame busting" ||
    includesSub content "if (top != self)"

/-- The script pass of modifyHtml: a script whose text content trips the
frame-busting test has its content replaced by an inert comment. -/
def scrubScript (el : Element) : Element :=
  if el.tagName == "SCRIPT" && bustingHit el.textContent then
    { el with textContent := "// Frame busting removed" }
  else el

/-- The base-tag pass of modifyHtml: when no base element exists, insert
one, with href the target origin plus a slash and target _blank, as the
first child of head (the front of the flat element list here). -/
def addBase (target : URLModel) (doc : List Element) : List Element :=
  if doc.any (fun el => el.tagName == "BASE") then doc
  else
    { tagName := "BASE",
      attrs := [("href", origin target ++ "/"), ("target", "_blank")],
      textContent := "" } :: doc

/-- The whole modifyHtml function over the flat element list: the
selector loop, then the frame-busting pass, then the base-tag pass. -/
def modifyHtml (doc : List Element) (target : URLModel) : List Element :=
  addBase target ((doc.map (rewriteElement target)).map scrubScript)

/-- An upstream response as node-fetch hands it to the handler: status,
header list, and the fully buffered body (a byte string; the model treats
the bytes and their UTF-8 decoding as the same string). -/
structure UpstreamResponse where
  status : Nat
  headers : List (String × String)
  body : String
deriving DecidableEq

/-- Case-insensitive first-match header lookup, as Headers.get performs
it; the lookup name is given lowercased. -/
def lookupHeaderCI : List (String × String) → String → Option String
  | [], _ => none
  | (k, w) :: rest, name =>
    if strToLower k == name then some w else lookupHeaderCI rest name

/-- Model of response.headers.get(name). -/
def getHeader (resp : UpstreamResponse) (name : String) : Option String :=
  lookupHeaderCI resp.headers name

/-- Outcome of the outbound fetch: a buffered response, or a thrown error
carrying its message (network, DNS or TLS failure). -/
inductive FetchOutcome where
  | success (resp : UpstreamResponse)
  | failure (msg : String)
deriving DecidableEq

/-- The body of the proxy response: opaque bytes, or a rewritten document
still in tree form (its serialisation is outside the model). -/
inductive BodyModel where
  | raw (bytes : String)
  | html (doc : List Element)
deriving DecidableEq

/-- The response the handler emits: status, the headers the handler set,
and the body. -/
structure ProxyResponse where
  status : Nat
  headers : List (String × String)
  body : BodyModel
deriving DecidableEq

/-- Model of res.redirect(loc): a 302 with a Location header. -/
def redirectResponse (loc : String) : ProxyResponse :=
  { status := 302, headers := [("Location", loc)], body := BodyModel.raw "" }

/-- The error template of the catch branch, up to the interpolated
message (braces of the inline CSS written as x7b and x7d escapes). -/
def errorPageHead : String :=
  "\n<!DOCTYPE html>\n<html>\n<head>\n    <meta charset=\"UTF-8\">\n    <title>Proxy Error</title>\n    <style>\n" ++
  "        body \x7b\n            font-family: Arial, sans-serif;\n            background: linear-gradient(135deg, #1a1a2e, #16213e);\n            color: white;\n            min-height: 100vh;\n            display: flex;\n            align-items: center;\n            justify-content: center;\n            margin: 0;\n        \x7d\n" ++
  "        .container \x7b\n            text-align: center;\n            padding: 40px;\n            background: rgba(255,255,255,0.1);\n            border-radius: 16px;\n            backdrop-filter: blur(10px);\n            max-width: 500px;\n        \x7d\n" ++
  "        h1 \x7b color: #f9d423; margin-bottom: 20px; \x7d\n        p \x7b color: #ccc; margin-bottom: 20px; line-height: 1.6; \x7d\n" ++
  "        .error \x7b color: #ff4e50; font-family: monospace; margin: 20px 0; padding: 10px; background: rgba(255,78,80,0.2); border-radius: 8px; \x7d\n" ++
  "        a \x7b\n            display: inline-block;\n            padding: 14px 28px;\n            background: linear-gradient(90deg, #f9d423, #ff4e50);\n            color: #1a1a2e;\n            text-decoration: none;\n            border-radius: 10px;\n            font-weight: bold;\n            transition: transform 0.2s;\n        \x7d\n" ++
  "        a:hover \x7b transform: scale(1.05); \x7d\n    </style>\n</head>\n<body>\n    <div class=\"container\">\n        <h1>Dogecoin Proxy Error</h1>\n        <p>Could not access the requested website.</p>\n        <div class=\"error\">"

/-- The template between the interpolated message and the home link. -/
def errorPageMid : String := "</div>\n        "

/-- The home link of the error template. -/
def homeLinkHtml : String := "<a href=\"/\">Go Back Home</a>"

/-- The template after the home link. -/
def errorPageTail : String := "\n    </div>\n</body>\n</html>\n        "

/-- The full error document of the catch branch, with the message of the
thrown error interpolated into it. -/
def errorPage (msg : String) : String :=
  errorPageHead ++ (msg ++ (errorPageMid ++ (homeLinkHtml ++ errorPageTail)))

/-- Model of the catch branch: res.status(502).send(errorPage). -/
def errorResponse (msg : String) : ProxyResponse :=
  { status := 502,
    headers := [("Content-Type", "text/html; charset=utf-8")],
    body := BodyModel.raw (errorPage msg) }

/-- The message of the TypeError thrown by new URL on an unparsable
string. -/
def invalidURLMessage : String := "Invalid URL"

/-- Scheme defaulting of the handler: prepend https:// unless the raw
target already starts with http:// or https://. -/
def normalizeTarget (raw : String) : String :=
  if strStarts raw "http://" || strStarts raw "https://" then raw
  else "https://" ++ raw

/-- The allow-list of passthrough response headers. -/
def safeHeaders : List String :=
  ["content-type", "content-length", "cache-control", "last-modified", "etag"]

/-- The header-filter loop of the passthrough branch: keep exactly the
upstream headers whose lowercased name the allow-list holds. -/
def passthroughHeaders (hs : List (String × String)) : List (String × String) :=
  hs.filter (fun kv => safeHeaders.contains (strToLower kv.1))

/-- The content-type dispatch of the handler on a non-redirect response:
an HTML body is decoded, parsed (the parse oracle stands for jsdom; none
is a thrown parse error) and rewritten, and sent with status 200; a parse
error falls back to the raw bytes under the upstream content type, also
with status 200; anything else is passed through with filtered headers,
the proxy marker header, and the upstream status. -/
def classifyResponse (target : URLModel) (resp : UpstreamResponse)
    (parse : String → Option (List Element)) : ProxyResponse :=
  if includesSub ((getHeader resp "content-type").getD "") "text/html" then
    match parse resp.body with
    | some doc =>
      { status := 200,
        headers := [("Content-Type", "text/html; charset=utf-8")],
        body := BodyModel.html (modifyHtml doc target) }
    | none =>
      { status := 200,
        headers := [("Content-Type", (getHeader resp "content-type").getD "")],
        body := BodyModel.raw resp.body }
  else
    { status := resp.status,
      headers := passthroughHeaders resp.headers ++ [("X-Proxy-By", "DogeProxy")],
      body := BodyModel.raw resp.body }

/-- The whole proxy route handler, with the outbound fetch and the jsdom
parse as oracles.  An empty captured target redirects to the landing
page; then the target is scheme-defaulted and parsed; a fetch failure or
an unparsable URL lands in the catch branch; a 3xx upstream response with
a truthy Location header (the JavaScript condition, so a present but
empty Location is falsy and does not count) becomes a proxy-relative
redirect; everything else goes to the content-type dispatch. -/
def handleProxy (raw : String) (fetchFn : String → FetchOutcome)
    (parse : String → Option (List Element)) : ProxyResponse :=
  if raw = "" then redirectResponse "/"
  else
    match parseAbsoluteURL (normalizeTarget raw) with
    | none => errorResponse invalidURLMessage
    | some target =>
      match fetchFn (normalizeTarget raw) with
      | FetchOutcome.failure msg => errorResponse msg
      | FetchOutcome.success resp =>
        if 300 ≤ resp.status ∧ resp.status < 400 then
          match getHeader resp "location" with
          | some loc =>
            if loc = "" then classifyResponse target resp parse
            else
              match resolveRef loc target with
              | some ru => redirectResponse (proxyPrefixStr ++ href ru)
              | none => errorResponse invalidURLMessage
          | none => classifyResponse target resp parse
        else classifyResponse target resp parse

/-! Supporting lemmas. -/

theorem strAppend_assoc (a b c : String) : (a ++ b) ++ c = a ++ (b ++ c) := by
  cases a with | mk la =>
  cases b with | mk lb =>
  cases c with | mk lc =>
  show String.mk ((la ++ lb) ++ lc) = String.mk (la ++ (lb ++ lc))
  rw [List.append_assoc]

theorem lookupAttr_setAttrList_self (l : List (String × String)) (k v : String) :
    lookupAttr (setAttrList l k v) k = some v := by
  induction l with
  | nil => simp [setAttrList, lookupAttr]
  | cons hd tl ih =>
    obtain ⟨k1, w1⟩ := hd
    by_cases h : k1 = k
    · simp [setAttrList, lookupAttr, h]
    · simp [setAttrList, lookupAttr, h, ih]

theorem lookupAttr_setAttrList_ne (l : List (String × String)) (k v m : String)
    (h : m ≠ k) : lookupAttr (setAttrList l k v) m = lookupAttr l m := by
  induction l with
  | nil => simp [setAttrList, lookupAttr, Ne.symm h]
  | cons hd tl ih =>
    obtain ⟨k1, w1⟩ := hd
    by_cases h1 : k1 = k
    · subst h1
      simp [setAttrList, lookupAttr, Ne.symm h]
    · by_cases h2 : k1 = m
      · subst h2
        simp [setAttrList, lookupAttr, h1]
      · simp [setAttrList, lookupAttr, h1, h2, ih]

theorem getAttr_setAttr_self (el : Element) (k v : String) :
    (el.setAttr k v).getAttr k = some v :=
  lookupAttr_setAttrList_self el.attrs k v

theorem getAttr_setAttr_ne (el : Element) (k v m : String) (h : m ≠ k) :
    (el.setAttr k v).getAttr m = el.getAttr m :=
  lookupAttr_setAttrList_ne el.attrs k v m h

theorem chosenAttr_ne_target (t : String) : chosenAttr t ≠ "target" := by
  unfold chosenAttr
  split
  · decide
  · split
    · decide
    · decide

theorem chosenAttr_ne_rel (t : String) : chosenAttr t ≠ "rel" := by
  unfold chosenAttr
  split
  · decide
  · split
    · decide
    · decide

theorem setAttr_textContent (el : Element) (k v : String) :
    (el.setAttr k v).textContent = el.textContent := rfl

theorem rewriteElement_textContent (target : URLModel) (el : Element) :
    (rewriteElement target el).textContent = el.textContent := by
  unfold rewriteElement
  split
  · split
    · rfl
    · split
      · rfl
      · split
        · rfl
        · dsimp only
          split
          · rfl
          · rfl
  · rfl

theorem mem_addBase (t : URLModel) (l : List Element) (x : Element) (h : x ∈ l) :
    x ∈ addBase t l := by
  unfold addBase
  split
  · exact h
  · exact List.mem_cons_of_mem _ h

/-! Concrete fixtures used by witnesses and counterexamples. -/

/-- The target https://en.wikipedia.org/ of the specification example. -/
def wikiTarget : URLModel :=
  { scheme := "https", host := "en.wikipedia.org", port := none, pathRest := "/" }

/-- The resolution of /wiki/Dog against the Wikipedia target. -/
def dogURL : URLModel :=
  { scheme := "https", host := "en.wikipedia.org", port := none, pathRest := "/wiki/Dog" }

/-- An anchor with href /wiki/Dog. -/
def anchorDog : Element :=
  { tagName := "A", attrs := [("href", "/wiki/Dog")], textContent := "" }

/-- The target https://a.com/. -/
def aTarget : URLModel :=
  { scheme := "https", host := "a.com", port := none, pathRest := "/" }

/-- The cross-origin URL https://b.com/x. -/
def bURL : URLModel :=
  { scheme := "https", host := "b.com", port := none, pathRest := "/x" }

/-- An anchor pointing at the cross-origin URL. -/
def anchorB : Element :=
  { tagName := "A", attrs := [("href", "https://b.com/x")], textContent := "" }

/-- An image whose src is a data URI. -/
def imgData : Element :=
  { tagName := "IMG", attrs := [("src", "data:text/html,hi")], textContent := "" }

/-- The opaque URL the data URI parses to, with origin null. -/
def dataURL : URLModel :=
  { scheme := "data", host := "", port := none, pathRest := "text/html,hi" }

/-- A link element with a stylesheet href. -/
def linkEl : Element :=
  { tagName := "LINK", attrs := [("href", "/style.css")], textContent := "" }

/-- An object element with a data attribute. -/
def objectEl : Element :=
  { tagName := "OBJECT", attrs := [("data", "/movie.swf")], textContent := "" }

/-- An anchor with a mailto href. -/
def mailtoEl : Element :=
  { tagName := "A", attrs := [("href", "mailto:a@b.com")], textContent := "" }

/-! Claim theorems. -/

/-- C1: for every element the selector loop processes whose chosen
attribute value is present, non-empty, not a fragment, mailto, tel or
javascript reference, and resolvable against the target URL, the
attribute is rewritten to the proxy prefix concatenated with the resolved
absolute URL; a cross-origin resolution additionally sets target equal to
_blank and rel equal to noopener noreferrer, while a same-origin
resolution leaves the target and rel attributes exactly as they were. -/
theorem c1_rewrite_and_mark (target : URLModel) (el : Element) (v : String)
    (ru : URLModel)
    (hsel : matchesSelector el = true)
    (hget : el.getAttr (chosenAttr el.tagName) = some v)
    (hskip : skipValue v = false)
    (hres : resolveRef v target = some ru) :
    (rewriteElement target el).getAttr (chosenAttr el.tagName)
        = some (proxyPrefixStr ++ href ru) ∧
    (origin ru ≠ origin target →
      (rewriteElement target el).getAttr "target" = some "_blank" ∧
      (rewriteElement target el).getAttr "rel" = some "noopener noreferrer") ∧
    (origin ru = origin target →
      (rewriteElement target el).getAttr "target" = el.getAttr "target" ∧
      (rewriteElement target el).getAttr "rel" = el.getAttr "rel") := by
  have key : rewriteElement target el =
      (if origin ru != origin target then
        (el.setAttr "target" "_blank").setAttr "rel" "noopener noreferrer"
      else el).setAttr (chosenAttr el.tagName) (proxyPrefixStr ++ href ru) := by
    simp only [rewriteElement, hsel, if_true, hget, hskip, Bool.false_eq_true,
      if_false, hres]
  refine ⟨?_, ?_, ?_⟩
  · rw [key]
    exact getAttr_setAttr_self _ _ _
  · intro horig
    have hb : (origin ru != origin target) = true := bne_iff_ne.mpr horig
    rw [key, if_pos hb]
    constructor
    · rw [getAttr_setAttr_ne _ _ _ _ (Ne.symm (chosenAttr_ne_target el.tagName)),
        getAttr_setAttr_ne _ _ _ _ (by decide)]
      exact getAttr_setAttr_self _ _ _
    · rw [getAttr_setAttr_ne _ _ _ _ (Ne.symm (chosenAttr_ne_rel el.tagName))]
      exact getAttr_setAttr_self _ _ _
  · intro horig
    have hb : (origin ru != origin target) = false := by
      rw [horig]
      exact bne_self_eq_false _
    rw [key, if_neg (by simp [hb])]
    exact ⟨getAttr_setAttr_ne _ _ _ _ (Ne.symm (chosenAttr_ne_target el.tagName)),
      getAttr_setAttr_ne _ _ _ _ (Ne.symm (chosenAttr_ne_rel el.tagName))⟩

/-- C1 witness: the cross-origin anchor https://b.com/x on the target
https://a.com/ is rewritten to /proxy/https://b.com/x and marked with
target _blank and rel noopener noreferrer; an image whose src is a data
URI resolves to an opaque URL with origin null, so it is marked
cross-origin as well and rewritten to /proxy/data:text/html,hi. -/
theorem c1_rewrite_and_mark_witness :
    (rewriteElement aTarget anchorB).getAttr (chosenAttr anchorB.tagName)
        = some (proxyPrefixStr ++ href bURL) ∧
    (rewriteElement aTarget anchorB).getAttr "target" = some "_blank" ∧
    (rewriteElement aTarget anchorB).getAttr "rel"
        = some "noopener noreferrer" ∧
    proxyPrefixStr ++ href bURL = "/proxy/https://b.com/x" ∧
    origin dataURL = "null" ∧
    (rewriteElement aTarget imgData).getAttr (chosenAttr imgData.tagName)
        = some (proxyPrefixStr ++ href dataURL) ∧
    (rewriteElement aTarget imgData).getAttr "target" = some "_blank" ∧
    (rewriteElement aTarget imgData).getAttr "rel"
        = some "noopener noreferrer" ∧
    proxyPrefixStr ++ href dataURL = "/proxy/data:text/html,hi" := by
  have h := c1_rewrite_and_mark aTarget anchorB "https://b.com/x" bURL
    (by decide) (by decide) (by decide) (by decide)
  have hd := c1_rewrite_and_mark aTarget imgData "data:text/html,hi" dataURL
    (by decide) (by decide) (by decide) (by decide)
  exact ⟨h.1, (h.2.1 (by decide)).1, (h.2.1 (by decide)).2, by decide,
    by decide, hd.1, (hd.2.1 (by decide)).1, (hd.2.1 (by decide)).2, by decide⟩

/-- C2: evaluation of the rewriter at a link element carrying only an
href attribute and at an object element carrying only a data attribute.
Both elements match their selectors, yet the code chooses the attribute
src for them (action only for FORM, href only for A), reads the absent
src attribute, and leaves both elements untouched, so the href of a link
element and the data of an object element are never rewritten. -/
theorem c2_link_object_not_rewritten :
    chosenAttr "LINK" = "src" ∧
    chosenAttr "OBJECT" = "src" ∧
    rewriteElement wikiTarget linkEl = linkEl ∧
    rewriteElement wikiTarget objectEl = objectEl ∧
    (rewriteElement wikiTarget linkEl).getAttr "href" = some "/style.css" ∧
    (rewriteElement wikiTarget objectEl).getAttr "data" = some "/movie.swf" := by
  decide

/-- C4: the selector loop never changes the text content of an element;
a script whose text content holds one of the literal substrings
top.location, frame busting or if (top != self) has its content replaced
with the inert comment, a script with none of them is left unchanged, and
the scrubbed image of every document element is in the rewritten
document. -/
theorem c4_frame_busting (doc : List Element) (target : URLModel) (el : Element)
    (hmem : el ∈ doc) (hscript : el.tagName = "SCRIPT") :
    (rewriteElement target el).textContent = el.textContent ∧
    (bustingHit el.textContent = true →
      (scrubScript el).textContent = "// Frame busting removed") ∧
    (bustingHit el.textContent = false → scrubScript el = el) ∧
    scrubScript (rewriteElement target el) ∈ modifyHtml doc target := by
  refine ⟨rewriteElement_textContent target el, ?_, ?_, ?_⟩
  · intro hb
    simp [scrubScript, hscript, hb]
  · intro hb
    simp [scrubScript, hb]
  · exact mem_addBase _ _ _
      (List.mem_map_of_mem _ (List.mem_map_of_mem _ hmem))

/-- C4 witness: a frame-busting script is replaced by the inert comment
and an innocuous script is left unchanged. -/
theorem c4_frame_busting_witness :
    (scrubScript
      { tagName := "SCRIPT", attrs := [],
        textContent := "if (top != self) \x7b top.location = self.location; \x7d" }).textContent
      = "// Frame busting removed" ∧
    scrubScript { tagName := "SCRIPT", attrs := [], textContent := "console.log(1);" }
      = { tagName := "SCRIPT", attrs := [], textContent := "console.log(1);" } := by
  have h1 := c4_frame_busting
    [{ tagName := "SCRIPT", attrs := [],
       textContent := "if (top != self) \x7b top.location = self.location; \x7d" }]
    wikiTarget
    { tagName := "SCRIPT", attrs := [],
      textContent := "if (top != self) \x7b top.location = self.location; \x7d" }
    (by simp) rfl
  have h2 := c4_frame_busting
    [{ tagName := "SCRIPT", attrs := [], textContent := "console.log(1);" }]
    wikiTarget
    { tagName := "SCRIPT", attrs := [], textContent := "console.log(1);" }
    (by simp) rfl
  exact ⟨h1.2.1 (by decide), h2.2.2.1 (by decide)⟩

/-- C5: an element whose chosen attribute value is empty or begins with a
fragment marker or a mailto, tel or javascript scheme is left completely
untouched by the selector loop: the attribute keeps its value and no
target or rel attribute is added. -/
theorem c5_skip_untouched (target : URLModel) (el : Element) (v : String)
    (hget : el.getAttr (chosenAttr el.tagName) = some v)
    (hskip : skipValue v = true) :
    rewriteElement target el = el := by
  by_cases hsel : matchesSelector el = true
  · simp [rewriteElement, hsel, hget, hskip]
  · simp [rewriteElement, hsel]

/-- C5 witness: a mailto anchor is left untouched. -/
theorem c5_skip_untouched_witness :
    rewriteElement wikiTarget mailtoEl = mailtoEl :=
  c5_skip_untouched wikiTarget mailtoEl "mailto:a@b.com" (by decide) (by decide)

/-! Pipeline-level lemmas and fixtures. -/

theorem errorPage_contains_msg (m : String) : strContains (errorPage m) m :=
  ⟨errorPageHead, errorPageMid ++ (homeLinkHtml ++ errorPageTail), rfl⟩

theorem errorPage_contains_home (m : String) :
    strContains (errorPage m) homeLinkHtml := by
  refine ⟨errorPageHead ++ (m ++ errorPageMid), errorPageTail, ?_⟩
  rw [strAppend_assoc, strAppend_assoc]
  rfl

/-- Reduction of the handler to the content-type dispatch on every
response that does not take the redirect branch. -/
theorem handleProxy_classify (raw : String) (f : String → FetchOutcome)
    (p : String → Option (List Element)) (target : URLModel)
    (resp : UpstreamResponse)
    (hraw : raw ≠ "")
    (hparse : parseAbsoluteURL (normalizeTarget raw) = some target)
    (hfetch : f (normalizeTarget raw) = FetchOutcome.success resp)
    (hnored : ¬(300 ≤ resp.status ∧ resp.status < 400 ∧
      (getHeader resp "location").isSome = true)) :
    handleProxy raw f p = classifyResponse target resp p := by
  by_cases hs : 300 ≤ resp.status ∧ resp.status < 400
  · have hloc : getHeader resp "location" = none := by
      cases hh : getHeader resp "location" with
      | none => rfl
      | some l => exact absurd ⟨hs.1, hs.2, by simp [hh]⟩ hnored
    simp [handleProxy, hraw, hparse, hfetch, hs, hloc]
  · simp [handleProxy, hraw, hparse, hfetch, hs]

/-- The target https://example.com/. -/
def exTarget : URLModel :=
  { scheme := "https", host := "example.com", port := none, pathRest := "/" }

/-- A parse oracle that always fails, as jsdom throwing does. -/
def noParse : String → Option (List Element) := fun _ => none

/-- A parse oracle that always yields the empty document. -/
def emptyParse : String → Option (List Element) := fun _ => some []

/-- An upstream 302 with a relative Location header. -/
def c3resp : UpstreamResponse :=
  { status := 302, headers := [("Location", "/next")], body := "MOVED" }

/-- A fetch oracle returning the 302 fixture. -/
def c3fetch : String → FetchOutcome := fun _ => FetchOutcome.success c3resp

/-- An upstream 302 whose Location header is present but empty. -/
def c3emptyResp : UpstreamResponse :=
  { status := 302,
    headers := [("Location", ""), ("Content-Type", "text/html")],
    body := "<p>redirect page" }

/-- A fetch oracle returning the empty-Location 302 fixture. -/
def c3emptyFetch : String → FetchOutcome := fun _ => FetchOutcome.success c3emptyResp

/-- A non-HTML upstream 404 with one allow-listed and one disallowed
header. -/
def c6resp : UpstreamResponse :=
  { status := 404,
    headers := [("Content-Type", "application/octet-stream"),
      ("Server", "nginx"), ("ETag", "abc")],
    body := "BYTES" }

/-- A fetch oracle returning the non-HTML fixture. -/
def c6fetch : String → FetchOutcome := fun _ => FetchOutcome.success c6resp

/-- A fetch oracle that fails the way a DNS resolution failure does. -/
def dnsFetch : String → FetchOutcome :=
  fun _ => FetchOutcome.failure "getaddrinfo ENOTFOUND nosuchhost.example"

/-- The target of the DNS failure fixture. -/
def nsTarget : URLModel :=
  { scheme := "https", host := "nosuchhost.example", port := none, pathRest := "/" }

/-- An HTML upstream 404 whose Content-Type names a non-UTF-8 charset. -/
def c10resp : UpstreamResponse :=
  { status := 404,
    headers := [("Content-Type", "text/html; charset=ISO-8859-1")],
    body := "<p>nope" }

/-- A fetch oracle returning the HTML 404 fixture. -/
def c10fetch : String → FetchOutcome := fun _ => FetchOutcome.success c10resp

/-! Pipeline claim theorems. -/

/-- C3 counterexample: an upstream 302 whose Location header is present
but empty falsifies the claim as stated.  The truthiness test of the
handler treats the empty Location as absent, so the pipeline does not
redirect; it classifies the response and, here, returns the upstream
body to the client with status 200 and no Location header. -/
theorem c3_counterexample :
    getHeader c3emptyResp "location" = some "" ∧
    c3emptyResp.status = 302 ∧
    handleProxy "example.com" c3emptyFetch noParse
        = { status := 200, headers := [("Content-Type", "text/html")],
            body := BodyModel.raw "<p>redirect page" } ∧
    c3emptyResp.body = "<p>redirect page" := by
  decide

/-- C3 (amended): a 3xx upstream response with a truthy Location header
(present and non-empty) never reaches the content-type dispatch: when
the Location value resolves against the target URL the handler answers
with a redirect whose Location is the proxy prefix concatenated with the
resolved absolute URL; when the Location header is absent — or present
but empty, which the truthiness test treats the same — the response is
handed to the content-type dispatch like any normal response. -/
theorem c3_redirect_translation (raw : String) (f : String → FetchOutcome)
    (p : String → Option (List Element)) (target : URLModel)
    (resp : UpstreamResponse)
    (hraw : raw ≠ "")
    (hparse : parseAbsoluteURL (normalizeTarget raw) = some target)
    (hfetch : f (normalizeTarget raw) = FetchOutcome.success resp)
    (hstatus : 300 ≤ resp.status ∧ resp.status < 400) :
    (∀ loc ru, getHeader resp "location" = some loc → loc ≠ "" →
      resolveRef loc target = some ru →
      handleProxy raw f p = redirectResponse (proxyPrefixStr ++ href ru)) ∧
    (getHeader resp "location" = none →
      handleProxy raw f p = classifyResponse target resp p) ∧
    (getHeader resp "location" = some "" →
      handleProxy raw f p = classifyResponse target resp p) := by
  refine ⟨?_, ?_, ?_⟩
  · intro loc ru hloc hne hru
    simp [handleProxy, hraw, hparse, hfetch, hstatus, hloc, hne, hru]
  · intro hloc
    simp [handleProxy, hraw, hparse, hfetch, hstatus, hloc]
  · intro hloc
    simp [handleProxy, hraw, hparse, hfetch, hstatus, hloc]

/-- C3 witness: a 302 from https://example.com/ with Location /next
becomes a redirect to /proxy/https://example.com/next. -/
theorem c3_redirect_translation_witness :
    handleProxy "example.com" c3fetch noParse
        = redirectResponse (proxyPrefixStr ++ href
            { scheme := "https", host := "example.com", port := none,
              pathRest := "/next" }) ∧
    proxyPrefixStr ++ href
        { scheme := "https", host := "example.com", port := none,
          pathRest := "/next" } = "/proxy/https://example.com/next" := by
  have h := (c3_redirect_translation "example.com" c3fetch noParse exTarget
    c3resp (by decide) (by decide) (by decide) (by decide)).1 "/next"
    { scheme := "https", host := "example.com", port := none, pathRest := "/next" }
    (by decide) (by decide) (by decide)
  exact ⟨h, by decide⟩

/-- C6: a non-redirect upstream response whose Content-Type does not
contain text/html is passed through: the upstream status is preserved
verbatim, the body is byte-identical, the X-Proxy-By marker is attached,
every emitted header is either the marker or an allow-listed upstream
header, and every allow-listed upstream header is emitted. -/
theorem c6_passthrough (raw : String) (f : String → FetchOutcome)
    (p : String → Option (List Element)) (target : URLModel)
    (resp : UpstreamResponse)
    (hraw : raw ≠ "")
    (hparse : parseAbsoluteURL (normalizeTarget raw) = some target)
    (hfetch : f (normalizeTarget raw) = FetchOutcome.success resp)
    (hnored : ¬(300 ≤ resp.status ∧ resp.status < 400 ∧
      (getHeader resp "location").isSome = true))
    (hct : includesSub ((getHeader resp "content-type").getD "") "text/html"
      = false) :
    handleProxy raw f p
        = { status := resp.status,
            headers := passthroughHeaders resp.headers
              ++ [("X-Proxy-By", "DogeProxy")],
            body := BodyModel.raw resp.body } ∧
    (handleProxy raw f p).status = resp.status ∧
    (handleProxy raw f p).body = BodyModel.raw resp.body ∧
    ("X-Proxy-By", "DogeProxy") ∈ (handleProxy raw f p).headers ∧
    (∀ kv, kv ∈ (handleProxy raw f p).headers →
      kv = ("X-Proxy-By", "DogeProxy") ∨
        (kv ∈ resp.headers ∧ safeHeaders.contains (strToLower kv.1) = true)) ∧
    (∀ kv, kv ∈ resp.headers → safeHeaders.contains (strToLower kv.1) = true →
      kv ∈ (handleProxy raw f p).headers) := by
  have hmain : handleProxy raw f p
      = { status := resp.status,
          headers := passthroughHeaders resp.headers
            ++ [("X-Proxy-By", "DogeProxy")],
          body := BodyModel.raw resp.body } := by
    rw [handleProxy_classify raw f p target resp hraw hparse hfetch hnored]
    simp [classifyResponse, hct]
  refine ⟨hmain, ?_, ?_, ?_, ?_, ?_⟩
  · rw [hmain]
  · rw [hmain]
  · rw [hmain]
    simp
  · intro kv hkv
    rw [hmain] at hkv
    simp only [List.mem_append, List.mem_singleton, passthroughHeaders,
      List.mem_filter] at hkv
    rcases hkv with ⟨h1, h2⟩ | h
    · exact Or.inr ⟨h1, h2⟩
    · exact Or.inl h
  · intro kv h1 h2
    rw [hmain]
    simp only [List.mem_append, passthroughHeaders, List.mem_filter]
    exact Or.inl ⟨h1, h2⟩

/-- C6 witness: an application/octet-stream 404 is passed through with
status 404, its body unchanged, the marker header present, the ETag kept
and the Server header dropped. -/
theorem c6_passthrough_witness :
    (handleProxy "example.com" c6fetch noParse).status = 404 ∧
    (handleProxy "example.com" c6fetch noParse).body = BodyModel.raw "BYTES" ∧
    ("X-Proxy-By", "DogeProxy") ∈ (handleProxy "example.com" c6fetch noParse).headers ∧
    ("ETag", "abc") ∈ (handleProxy "example.com" c6fetch noParse).headers ∧
    ("Server", "nginx") ∉ (handleProxy "example.com" c6fetch noParse).headers := by
  have h := c6_passthrough "example.com" c6fetch noParse exTarget c6resp
    (by decide) (by decide) (by decide) (by decide) (by decide)
  refine ⟨h.2.1, h.2.2.1, h.2.2.2.1, ?_, ?_⟩
  · exact h.2.2.2.2.2 ("ETag", "abc") (by decide) (by decide)
  · intro hmem
    rcases h.2.2.2.2.1 ("Server", "nginx") hmem with h1 | h1
    · exact absurd h1 (by decide)
    · exact absurd h1.2 (by decide)

/-- C7: scheme defaulting of the handler: a non-empty raw target that
starts with neither http:// nor https:// gets https:// prepended exactly
once, and a raw target that already starts with either scheme marker is
parsed unchanged. -/
theorem c7_scheme_default (raw : String) :
    (raw ≠ "" → strStarts raw "http://" = false →
      strStarts raw "https://" = false →
      normalizeTarget raw = "https://" ++ raw) ∧
    (strStarts raw "http://" = true ∨ strStarts raw "https://" = true →
      normalizeTarget raw = raw) := by
  constructor
  · intro _ h1 h2
    simp [normalizeTarget, h1, h2]
  · intro h
    rcases h with h | h <;> simp [normalizeTarget, h]

/-- C7 witness: wikipedia.org gains the https scheme once and
http://a.com is left untouched. -/
theorem c7_scheme_default_witness :
    normalizeTarget "wikipedia.org" = "https://" ++ "wikipedia.org" ∧
    normalizeTarget "wikipedia.org" = "https://wikipedia.org" ∧
    normalizeTarget "http://a.com" = "http://a.com" := by
  have h1 := (c7_scheme_default "wikipedia.org").1 (by decide) (by decide) (by decide)
  have h2 := (c7_scheme_default "http://a.com").2 (Or.inl (by decide))
  exact ⟨h1, by rw [h1]; decide, h2⟩

/-- C8: an empty captured target path makes the handler redirect to the
landing page, and the answer does not depend on the fetch or parse
oracles, so the upstream fetcher is never consulted. -/
theorem c8_missing_target (f g : String → FetchOutcome)
    (p q : String → Option (List Element)) :
    handleProxy "" f p = redirectResponse "/" ∧
    handleProxy "" f p = handleProxy "" g q := by
  constructor <;> rfl

/-- C9: every failure of target-URL parsing or of the upstream fetch
produces the 502 error document, whose body contains the literal message
of the failure and the link back to the landing page. -/
theorem c9_error_page (raw msg : String) (f : String → FetchOutcome)
    (p : String → Option (List Element))
    (hraw : raw ≠ "") :
    (parseAbsoluteURL (normalizeTarget raw) = none →
      handleProxy raw f p = errorResponse invalidURLMessage ∧
      (handleProxy raw f p).status = 502 ∧
      (handleProxy raw f p).body = BodyModel.raw (errorPage invalidURLMessage) ∧
      strContains (errorPage invalidURLMessage) invalidURLMessage ∧
      strContains (errorPage invalidURLMessage) homeLinkHtml) ∧
    (∀ target, parseAbsoluteURL (normalizeTarget raw) = some target →
      f (normalizeTarget raw) = FetchOutcome.failure msg →
      handleProxy raw f p = errorResponse msg ∧
      (handleProxy raw f p).status = 502 ∧
      (handleProxy raw f p).body = BodyModel.raw (errorPage msg) ∧
      strContains (errorPage msg) msg ∧
      strContains (errorPage msg) homeLinkHtml) := by
  constructor
  · intro hnone
    have hmain : handleProxy raw f p = errorResponse invalidURLMessage := by
      simp [handleProxy, hraw, hnone]
    exact ⟨hmain, by rw [hmain]; rfl, by rw [hmain]; rfl,
      errorPage_contains_msg _, errorPage_contains_home _⟩
  · intro target hsome hfail
    have hmain : handleProxy raw f p = errorResponse msg := by
      simp [handleProxy, hraw, hsome, hfail]
    exact ⟨hmain, by rw [hmain]; rfl, by rw [hmain]; rfl,
      errorPage_contains_msg _, errorPage_contains_home _⟩

/-- C9 witness: a DNS resolution failure yields a 502 whose body holds
the error message and the home link. -/
theorem c9_error_page_witness :
    (handleProxy "nosuchhost.example" dnsFetch noParse).status = 502 ∧
    (handleProxy "nosuchhost.example" dnsFetch noParse).body
        = BodyModel.raw (errorPage "getaddrinfo ENOTFOUND nosuchhost.example") ∧
    strContains (errorPage "getaddrinfo ENOTFOUND nosuchhost.example")
      "getaddrinfo ENOTFOUND nosuchhost.example" ∧
    strContains (errorPage "getaddrinfo ENOTFOUND nosuchhost.example")
      homeLinkHtml := by
  have h := (c9_error_page "nosuchhost.example"
    "getaddrinfo ENOTFOUND nosuchhost.example" dnsFetch noParse
    (by decide)).2 nsTarget (by decide) (by decide)
  exact ⟨h.2.1, h.2.2.1, h.2.2.2.1, h.2.2.2.2⟩

/-- C10 counterexample: the parse-error fallback of the HTML branch sends
the allow-listed upstream Content-Type header verbatim, so the claim that
the HTML branch carries none of the allow-listed upstream headers fails
at this input. -/
theorem c10_counterexample :
    (handleProxy "example.com" c10fetch noParse).status = 200 ∧
    ("Content-Type", "text/html; charset=ISO-8859-1")
        ∈ (handleProxy "example.com" c10fetch noParse).headers ∧
    ("Content-Type", "text/html; charset=ISO-8859-1") ∈ c10resp.headers ∧
    safeHeaders.contains (strToLower "Content-Type") = true := by
  decide

/-- C10 amended: a non-redirect upstream response whose Content-Type
contains text/html is answered with status 200 whatever the upstream
status, without the X-Proxy-By marker, and with Content-Type as the only
header the handler sets: the fixed text/html; charset=utf-8 for the
rewritten document, the upstream Content-Type in the parse-error
fallback (so no allow-listed upstream header other than Content-Type is
ever carried). -/
theorem c10_html_status200 (raw : String) (f : String → FetchOutcome)
    (p : String → Option (List Element)) (target : URLModel)
    (resp : UpstreamResponse)
    (hraw : raw ≠ "")
    (hparse : parseAbsoluteURL (normalizeTarget raw) = some target)
    (hfetch : f (normalizeTarget raw) = FetchOutcome.success resp)
    (hnored : ¬(300 ≤ resp.status ∧ resp.status < 400 ∧
      (getHeader resp "location").isSome = true))
    (hct : includesSub ((getHeader resp "content-type").getD "") "text/html"
      = true) :
    (handleProxy raw f p).status = 200 ∧
    (∀ w, ("X-Proxy-By", w) ∉ (handleProxy raw f p).headers) ∧
    (∀ kv, kv ∈ (handleProxy raw f p).headers → kv.1 = "Content-Type") ∧
    (∀ doc, p resp.body = some doc →
      (handleProxy raw f p).headers
          = [("Content-Type", "text/html; charset=utf-8")] ∧
      (handleProxy raw f p).body = BodyModel.html (modifyHtml doc target)) ∧
    (p resp.body = none →
      (handleProxy raw f p).headers
          = [("Content-Type", (getHeader resp "content-type").getD "")] ∧
      (handleProxy raw f p).body = BodyModel.raw resp.body) := by
  have hred := handleProxy_classify raw f p target resp hraw hparse hfetch hnored
  cases hp : p resp.body with
  | some doc =>
    have hmain : handleProxy raw f p
        = { status := 200,
            headers := [("Content-Type", "text/html; charset=utf-8")],
            body := BodyModel.html (modifyHtml doc target) } := by
      rw [hred]
      simp [classifyResponse, hct, hp]
    refine ⟨by rw [hmain], ?_, ?_, ?_, ?_⟩
    · intro w hw
      rw [hmain] at hw
      simp only [List.mem_singleton, Prod.mk.injEq] at hw
      exact absurd hw.1 (by decide)
    · intro kv hkv
      rw [hmain] at hkv
      simp only [List.mem_singleton] at hkv
      rw [hkv]
    · intro doc2 hp2
      cases hp2
      exact ⟨by rw [hmain], by rw [hmain]⟩
    · intro hp2
      cases hp2
  | none =>
    have hmain : handleProxy raw f p
        = { status := 200,
            headers := [("Content-Type", (getHeader resp "content-type").getD "")],
            body := BodyModel.raw resp.body } := by
      rw [hred]
      simp [classifyResponse, hct, hp]
    refine ⟨by rw [hmain], ?_, ?_, ?_, ?_⟩
    · intro w hw
      rw [hmain] at hw
      simp only [List.mem_singleton, Prod.mk.injEq] at hw
      exact absurd hw.1 (by decide)
    · intro kv hkv
      rw [hmain] at hkv
      simp only [List.mem_singleton] at hkv
      rw [hkv]
    · intro doc2 hp2
      cases hp2
    · intro _
      exact ⟨by rw [hmain], by rw [hmain]⟩

/-- C10 witness: an HTML 404 is answered with status 200 and the fixed
rewritten-document Content-Type. -/
theorem c10_html_status200_witness :
    (handleProxy "example.com" c10fetch emptyParse).status = 200 ∧
    (handleProxy "example.com" c10fetch emptyParse).headers
        = [("Content-Type", "text/html; charset=utf-8")] := by
  have h := c10_html_status200 "example.com" c10fetch emptyParse exTarget
    c10resp (by decide) (by decide) (by decide) (by decide) (by decide)
  exact ⟨h.1, (h.2.2.2.1 [] rfl).1⟩

end DogeProxy
